import Mathlib

/-!
Verification of the sentiment-analysis backend.

The definitions in this file are a shallow embedding of the Python sources:
- `backend/services/sentiment_service.py` (classification cascade, aspect
  extraction, insight synthesis),
- `backend/services/scraper_service.py` (ingestion coordinator),
- `backend/app.py` (schema inference in `process_file`).

Texts are Lean `String`s; Python floats are modelled as rationals `ℚ`;
external effects (the generative provider, the VADER lexicon engine, the
HTTP review source, the clock and the random generator) are modelled as
explicit environment records, with `Option` encoding the caught-exception /
missing-value paths of the source.
-/

/-! ### String helpers (Python `str.lower`, `in`, `split`, `strip`) -/

/-- Python `str.lower()` on a character (ASCII case, which covers every
keyword literal in the source). -/
def lowerChar (c : Char) : Char := c.toLower

/-- Lowercased character list of a string: `text.lower()`. -/
def lowerCL (cs : List Char) : List Char := cs.map lowerChar

/-- Source `text.lower()` as a string. -/
def strLower (s : String) : String := String.mk (lowerCL s.data)

/-- Source `listHasPref needle hay`: `hay` starts with `needle`. -/
def listHasPref : List Char → List Char → Bool
  | [], _ => true
  | _ :: _, [] => false
  | a :: as, b :: bs => a == b && listHasPref as bs

/-- Source `listHasSub needle hay`: Python `needle in hay` (substring test). -/
def listHasSub (needle : List Char) : List Char → Bool
  | [] => needle.isEmpty
  | b :: tl => listHasPref needle (b :: tl) || listHasSub needle tl

/-- Python `needle in hay` for strings. -/
def strContains (hay needle : String) : Bool := listHasSub needle.data hay.data

/-- Source `strStarts s p`: `s` starts with `p`. -/
def strStarts (s p : String) : Bool := listHasPref p.data s.data

/-- Python `text.split('.')`: split on every dot, keeping empty pieces. -/
def splitDot : List Char → List (List Char)
  | [] => [[]]
  | c :: rest =>
    let r := splitDot rest
    if c == '.' then [] :: r
    else
      match r with
      | [] => [[c]]
      | h :: t => (c :: h) :: t

/-- Python `str.strip()`: drop whitespace from both ends. -/
def trimCL (cs : List Char) : List Char :=
  ((cs.dropWhile Char.isWhitespace).reverse.dropWhile Char.isWhitespace).reverse

/-! ### The keyword-heuristic classification tier (`analyze_sentiment_basic`) -/

/-- Source `positive_words` of `analyze_sentiment_basic`. -/
def positive_words : List String :=
  ["good", "great", "excellent", "amazing", "love", "best", "perfect",
   "recommend", "happy", "satisfied"]

/-- Source `negative_words` of `analyze_sentiment_basic`. -/
def negative_words : List String :=
  ["bad", "poor", "terrible", "awful", "hate", "worst", "disappointed",
   "waste", "unhappy", "broken"]

/-- Source `sum(1 for word in words if word in text_lower)`: the number of keywords
of `ws` present (as substrings) in the already-lowercased text. -/
def countMatches (ws : List String) (text_lower : String) : ℕ :=
  (ws.filter (fun w => strContains text_lower w)).length

/-- Positive-keyword count of a raw text (after lowercasing). -/
def posCount (text : String) : ℕ := countMatches positive_words (strLower text)

/-- Negative-keyword count of a raw text (after lowercasing). -/
def negCount (text : String) : ℕ := countMatches negative_words (strLower text)

/-- The sentiment label chosen from the two keyword counts
(`analyze_sentiment_basic`, lines 200–209). -/
def sentimentOf (p n : ℕ) : String :=
  if n < p then "positive" else if p < n then "negative" else "neutral"

/-- The score chosen from the two keyword counts
(`analyze_sentiment_basic`, lines 200–209). -/
def scoreOf (p n : ℕ) : ℚ :=
  if n < p then 1/2 + min (1/2) (((p : ℚ) - (n : ℚ)) / 10)
  else if p < n then 1/2 - min (1/2) (((n : ℚ) - (p : ℚ)) / 10)
  else 1/2

/-! ### Aspect extraction (`extract_aspects_basic`) -/

/-- Source `aspect_keywords` of `extract_aspects_basic`, in source order. -/
def aspect_keywords : List (String × List String) :=
  [("quality", ["quality", "build", "construction", "durability", "sturdy", "solid"]),
   ("price", ["price", "cost", "value", "expensive", "cheap", "affordable", "worth"]),
   ("performance", ["performance", "speed", "fast", "slow", "responsive", "lag"]),
   ("design", ["design", "look", "style", "appearance", "aesthetic", "beautiful", "ugly"]),
   ("usability", ["easy to use", "user friendly", "intuitive", "complicated", "difficult", "simple"]),
   ("customer service", ["service", "support", "help", "assistance", "representative", "warranty"]),
   ("delivery", ["delivery", "shipping", "arrived", "package", "box", "packaging"])]

/-- Score attached to an emitted aspect: `0.7 if positive else (0.3 if
negative else 0.5)`. -/
def aspectScore (sentiment : String) : ℚ :=
  if sentiment = "positive" then 7/10 else if sentiment = "negative" then 3/10 else 5/10

/-- The aspect-emission loop of `extract_aspects_basic` over a keyword
table: an aspect is kept when any of its keywords occurs in the lowered
text, and carries the overall sentiment with the fixed score. -/
def buildAspects (text_lower : String) (overall : String) :
    List (String × List String) → List (String × String × ℚ)
  | [] => []
  | (a, kws) :: rest =>
    (if kws.any (fun k => strContains text_lower k) then
      [(a, overall, aspectScore overall)] else [])
      ++ buildAspects text_lower overall rest

/-- Source `extract_aspects_basic(text, overall_sentiment)`; the result dict is
modelled as an association list in `aspect_keywords` order. -/
def extract_aspects_basic (text : String) (overall_sentiment : String) :
    List (String × String × ℚ) :=
  buildAspects (strLower text) overall_sentiment aspect_keywords

/-! ### Strength/weakness extraction (`extract_strengths_weaknesses`) -/

/-- Source `strength_indicators` of `extract_strengths_weaknesses`. -/
def strength_indicators : List String :=
  ["good", "great", "excellent", "love", "best", "perfect", "recommend",
   "happy", "satisfied", "like"]

/-- Source `weakness_indicators` of `extract_strengths_weaknesses`. -/
def weakness_indicators : List String :=
  ["bad", "poor", "terrible", "hate", "worst", "disappointed", "waste",
   "unhappy", "broken", "issue", "problem"]

/-- One iteration of the sentence loop of `extract_strengths_weaknesses`:
keep the stripped sentence when it contains an indicator, is non-empty and
longer than 5 characters. -/
def keepSentence (inds : List String) (s : List Char) : Option String :=
  if inds.any (fun ind => listHasSub ind.data (lowerCL s)) then
    let c := trimCL s
    if c.isEmpty then none
    else if 5 < c.length then some (String.mk c) else none
  else none

/-- Source `extract_strengths_weaknesses(text, strengths)`. -/
def extract_strengths_weaknesses (text : String) (strengths : Bool) : List String :=
  let indicators := if strengths then strength_indicators else weakness_indicators
  (((splitDot text.data).filterMap (keepSentence indicators))).take 3

/-! ### The sentiment verdict and the three cascade tiers -/

/-- The dictionary returned by the classification functions.  `confidence`
is `Option`-valued because no tier of the source ever puts a
`"confidence"` key into its result dict; `none` models the absent key. -/
structure Verdict where
  sentiment : String
  score : ℚ
  aspects : List (String × String × ℚ)
  summary : String
  strengths : List String
  weaknesses : List String
  improvement_suggestions : List String
  confidence : Option ℚ
  deriving Repr, DecidableEq

/-- Source `analyze_sentiment_basic(text)`: the keyword-heuristic tier. -/
def analyze_sentiment_basic (text : String) : Verdict :=
  let p := posCount text
  let n := negCount text
  let sentiment := sentimentOf p n
  { sentiment := sentiment
    score := scoreOf p n
    aspects := extract_aspects_basic text sentiment
    summary := "The review expresses " ++ sentiment ++ " sentiment overall."
    strengths := extract_strengths_weaknesses text true
    weaknesses := extract_strengths_weaknesses text false
    improvement_suggestions := []
    confidence := none }

/-- The parsed JSON object a successful generative-provider (Gemini) call
yields, after the required-field accesses `result["sentiment"]` and
`result["sentiment_score"]` succeeded; the remaining keys are optional
(`result.get(..., default)`). -/
structure GeminiParsed where
  sentiment : String
  sentiment_score : ℚ
  aspects : Option (List (String × String × ℚ))
  summary : Option String
  strengths : Option (List String)
  weaknesses : Option (List String)
  improvement_suggestions : Option (List String)

/-- The `normalized_result` built by `analyze_sentiment_gemini` from a
parsed provider response. -/
def normalizeGemini (g : GeminiParsed) : Verdict :=
  { sentiment := strLower g.sentiment
    score := g.sentiment_score
    aspects := g.aspects.getD []
    summary := g.summary.getD ""
    strengths := g.strengths.getD []
    weaknesses := g.weaknesses.getD []
    improvement_suggestions := g.improvement_suggestions.getD []
    confidence := none }

/-- Source `analyze_sentiment_vader(compound, text)`: the lexicon tier, given the
compound polarity the VADER engine computed for the text. -/
def analyze_sentiment_vader (compound : ℚ) (text : String) : Verdict :=
  let sentiment :=
    if 5/100 ≤ compound then "positive"
    else if compound ≤ -(5/100) then "negative"
    else "neutral"
  { sentiment := sentiment
    score := (compound + 1) / 2
    aspects := extract_aspects_basic text sentiment
    summary := "The review expresses " ++ sentiment ++ " sentiment overall."
    strengths := extract_strengths_weaknesses text true
    weaknesses := extract_strengths_weaknesses text false
    improvement_suggestions := []
    confidence := none }

/-- Environment of `analyze_sentiment`: module-level configuration plus the
outcome of the external calls.  `gemini = none` models any exception of
`analyze_sentiment_gemini` (network error, non-2xx, missing JSON or a
missing required field), which the caller catches; `vaderCompound = none`
models an exception inside the VADER tier, which falls back to the basic
tier. -/
structure SentimentEnv where
  geminiKey : Option String
  gemini : Option GeminiParsed
  vaderAvailable : Bool
  vaderCompound : Option ℚ

/-- Source `analyze_sentiment(text)`: the three-tier cascade.  Every failure path
is a caught exception in the source, modelled by the `Option`s of the
environment; the function is total, so no failure reaches the caller. -/
def analyze_sentiment (env : SentimentEnv) (text : String) : Verdict :=
  let fallback :=
    if env.vaderAvailable then
      match env.vaderCompound with
      | some c => analyze_sentiment_vader c text
      | none => analyze_sentiment_basic text
    else analyze_sentiment_basic text
  match env.geminiKey, env.gemini with
  | some _, some g => normalizeGemini g
  | some _, none => fallback
  | none, _ => fallback

/-- Source `result['confidence'] = sentiment_result.get('confidence', 0.8)` from
`process_file` in `backend/app.py`. -/
def result_confidence (v : Verdict) : ℚ := v.confidence.getD (8/10)

/-- Environment in which no generative key is configured and the lexicon
engine is unavailable: only the keyword-heuristic tier can answer. -/
def bareEnv : SentimentEnv :=
  { geminiKey := none, gemini := none, vaderAvailable := false, vaderCompound := none }

/-! ### Insight synthesis (`generate_actionable_insights`, `generate_insights_basic`) -/

/-- The slice of a classified review record read by
`generate_insights_basic` (`review.get("sentiment", "neutral")`,
`review.get("strengths", [])`, `review.get("weaknesses", [])`). -/
structure InReview where
  sentiment : String
  strengths : List String
  weaknesses : List String
  deriving Repr, DecidableEq

/-- One entry of `actionable_insights`. -/
structure ActionItem where
  insight : String
  action : String
  priority : String
  impact_area : String
  deriving Repr, DecidableEq

/-- The insight report dictionary. -/
structure InsightReport where
  key_strengths : List String
  key_weaknesses : List String
  improvement_suggestions : List String
  competitive_advantage : String
  customer_satisfaction_summary : String
  actionable_insights : List ActionItem
  deriving Repr, DecidableEq

/-- The fixed report returned for an empty review batch. -/
def not_enough_data_report : InsightReport :=
  { key_strengths := []
    key_weaknesses := []
    improvement_suggestions := []
    competitive_advantage := "Not enough data"
    customer_satisfaction_summary := "Not enough data"
    actionable_insights := [] }

/-- Source `list(set(xs))` from the source.  The iteration order of a Python set
is unspecified; it is modelled as first-occurrence de-duplication (the
claims proved below do not depend on the order). -/
def pySetList : List String → List String
  | [] => []
  | x :: rest => x :: pySetList (rest.filter (fun y => y ≠ x))
termination_by l => l.length
decreasing_by
  simp only [List.length_cons]
  exact Nat.lt_succ_of_le (List.length_filter_le _ _)

/-- Source `generate_insights_basic(reviews, product_name)`: the deterministic
heuristic synthesis tier. -/
def generate_insights_basic (reviews : List InReview) (_product_name : String) :
    InsightReport :=
  let total := reviews.length
  let positives := (reviews.filter (fun r => r.sentiment == "positive")).length
  let positive_percentage : ℚ :=
    if 0 < total then ((positives : ℚ) / (total : ℚ)) * 100 else 0
  let all_strengths := (reviews.map (fun r => r.strengths)).flatten
  let all_weaknesses := (reviews.map (fun r => r.weaknesses)).flatten
  let key_strengths := (pySetList all_strengths).take 5
  let key_weaknesses := (pySetList all_weaknesses).take 5
  let improvement_suggestions :=
    (key_weaknesses.take 3).map (fun w => "Address issue: " ++ w)
  let satisfaction :=
    if 70 ≤ positive_percentage then
      "Customers are generally very satisfied with the product."
    else if 50 ≤ positive_percentage then
      "Customers are moderately satisfied, but there are some areas for improvement."
    else
      "Customer satisfaction is low. Immediate attention to product issues is recommended."
  let base : List ActionItem :=
    [{ insight := "Customer sentiment analysis"
       action := "Focus on " ++ (if 50 ≤ positive_percentage then
         "maintaining positive aspects" else "addressing negative feedback")
       priority := if positive_percentage < 50 then "high" else "medium"
       impact_area := "product" }]
  let withStrength :=
    if key_strengths.isEmpty then base
    else base ++ [{ insight := "Key strength: " ++ key_strengths.headD ""
                    action := "Highlight this strength in marketing materials"
                    priority := "medium"
                    impact_area := "marketing" }]
  let withWeakness :=
    if key_weaknesses.isEmpty then withStrength
    else withStrength ++ [{ insight := "Key weakness: " ++ key_weaknesses.headD ""
                            action := "Develop improvement plan to address this issue"
                            priority := "high"
                            impact_area := "product development" }]
  { key_strengths := key_strengths
    key_weaknesses := key_weaknesses
    improvement_suggestions := improvement_suggestions
    competitive_advantage := key_strengths.headD "Not identified"
    customer_satisfaction_summary := satisfaction
    actionable_insights := withWeakness }

/-- Environment of `generate_actionable_insights`: whether a generative
key is configured, and the outcome of the provider call (`none` models
every failure path — exception, missing JSON, parse error — all of which
the source answers with the basic tier). -/
structure InsightEnv where
  geminiKey : Bool
  geminiReport : Option InsightReport

/-- Source `generate_actionable_insights(reviews, product_name)`. -/
def generate_actionable_insights (env : InsightEnv) (reviews : List InReview)
    (product_name : String) : InsightReport :=
  if reviews.isEmpty then not_enough_data_report
  else if env.geminiKey then
    match env.geminiReport with
    | some r => r
    | none => generate_insights_basic reviews product_name
  else generate_insights_basic reviews product_name

/-! ### Schema inference (`process_file` in `backend/app.py`) -/

/-- One column of an ingested table: its name, whether pandas assigned it
the string (`object`) dtype, and the `astype(str)` renderings of its
cells. -/
structure Column where
  name : String
  isObj : Bool
  cells : List String
  deriving Repr, DecidableEq

/-- A row-oriented table, columns in order. -/
abbrev Table : Type := List Column

/-- Source `name in df.columns`. -/
def hasCol (t : Table) (n : String) : Bool :=
  (List.any t fun c => c.name == n)

/-- Source `df[name]`: the first column of that name. -/
def getCol (t : Table) (n : String) : Option Column :=
  (List.find? (fun c => c.name == n) t)

/-- Source `df[col].astype(str).str.len().mean() > 10`: strict mean-length test;
an empty column yields `NaN`, for which the comparison is false. -/
def avgLenOver10 (c : Column) : Bool :=
  !c.cells.isEmpty && decide (10 * c.cells.length < (c.cells.map String.length).sum)

/-- The Amazon wide-format test of `process_file`:
`all(col in df.columns for col in ['product_name', 'review_text', 'rating'])`. -/
def amazonFormat (t : Table) : Bool :=
  hasCol t "product_name" && hasCol t "review_text" && hasCol t "rating"

/-- The aliasing step `df['text'] = df['review_text']` run for the Amazon
wide format when no `text` column exists (pandas appends the new column). -/
def prepTable (t : Table) : Table :=
  if amazonFormat t && !(hasCol t "text") then
    match getCol t "review_text" with
    | some c => t ++ [{ name := "text", isObj := c.isObj, cells := c.cells }]
    | none => t
  else t

/-- The text-column resolution chain of `process_file` (lines 119–135):
exact name matches in priority order, then the first object-dtype column
whose average rendered length exceeds 10. -/
def findTextColumn (t : Table) : Option String :=
  if hasCol t "text" then some "text"
  else if hasCol t "review_text" then some "review_text"
  else if hasCol t "comment" then some "comment"
  else if hasCol t "feedback" then some "feedback"
  else (List.find? (fun c => c.isObj && avgLenOver10 c) t).map (fun c => c.name)

/-- Modelled from the spec's wording of the resolution order: first exact
name match among `{text, review_text, comment, feedback}` in that
priority, else the first string-typed column whose average string length
exceeds 10 characters.  Used to state C3 as a refinement of the code's
`findTextColumn`. -/
def spec_text_resolution (t : Table) : Option String :=
  match List.find? (fun n => hasCol t n) ["text", "review_text", "comment", "feedback"] with
  | some n => some n
  | none => (List.find? (fun c => c.isObj && avgLenOver10 c) t).map (fun c => c.name)

/-- The user-visible failure message of `process_file` when no text column
qualifies. -/
def noTextColumnMsg : String :=
  "No suitable text column found in the file. Please ensure there's a column with review text."

/-- Text extraction of `process_file`: alias, resolve, then read the
chosen column; resolution failure is the terminal error for the whole
ingestion. -/
def processTableText (t : Table) : Except String (List String) :=
  let t' := prepTable t
  match findTextColumn t' with
  | some n =>
    match getCol t' n with
    | some c => Except.ok c.cells
    | none => Except.error noTextColumnMsg
  | none => Except.error noTextColumnMsg

/-! ### Ingestion coordinator (`scrape_amazon_reviews_api` in `scraper_service.py`) -/

/-- A raw item of one fetched page, after the `review.get(...)` defaulting
of the source (`id`, `title`, `text`, `rating` already float-coerced,
`username`, the free-text date, `verified_purchase`, `helpful_votes`). -/
structure RawItem where
  id : String
  title : String
  text : String
  rating : ℚ
  username : String
  dateText : String
  verified : Bool
  helpful : ℕ
  deriving Repr, DecidableEq

/-- A processed review record as accumulated by
`scrape_amazon_reviews_api`. -/
structure ScrapedReview where
  review_id : String
  title : String
  text : String
  rating : ℚ
  reviewer_name : String
  review_date_text : String
  review_date : String
  verified_purchase : Bool
  helpful_votes : ℕ
  deriving Repr, DecidableEq

/-- One page request: the varying parts of the query string (`sort_by`,
`star_rating`, `page`); `asin` and `country` are fixed per run. -/
structure PageQuery where
  sortBy : String
  starRating : String
  page : ℕ
  deriving Repr, DecidableEq

/-- Environment of one scrape run: the paginated source (`none` models a
fetch/parse exception or a response with no `reviews` key), the clock, the
date parser (the `strptime` loop over the known formats; `none` = all
formats failed), and the random generator used by the mock backfill.
`nowDay` and `daysInMonth` are the day-of-month of `datetime.now()` and
the number of days of the current month, which govern the validity of the
mock generator's `replace(day=...)` call; `daysAgoPick` supplies the
`random.randint(1, 365)` draws; `fmtMonthDayYear` / `fmtIso` render the
shifted date (`strftime("%B %d, %Y")` / `isoformat()`) as a function of
its day field. -/
structure ScrapeEnv where
  fetch : PageQuery → Option (List RawItem)
  now : String
  parseDate : String → Option String
  ratingPick : ℕ → Fin 5
  textPick : ℕ → ℕ
  daysAgoPick : ℕ → ℕ
  nowDay : ℕ
  daysInMonth : ℕ
  fmtMonthDayYear : ℤ → String
  fmtIso : ℤ → String
  mockVerified : ℕ → Bool
  mockHelpful : ℕ → ℕ

/-- The `processed_review` dict built from one raw item: the date is
best-effort parsed, defaulting to `datetime.now().isoformat()`. -/
def processItem (env : ScrapeEnv) (it : RawItem) : ScrapedReview :=
  { review_id := it.id
    title := it.title
    text := it.text
    rating := it.rating
    reviewer_name := it.username
    review_date_text := it.dateText
    review_date := (env.parseDate it.dateText).getD env.now
    verified_purchase := it.verified
    helpful_votes := it.helpful }

/-- Source `positive_texts` of `mock_amazon_reviews`. -/
def mock_positive_texts : List String :=
  ["This product is amazing! I love how easy it is to use and the quality is excellent.",
   "I've been using this for a month now and it's holding up well. Very satisfied with my purchase.",
   "Great value for the price. Would definitely recommend to friends and family.",
   "The customer service was excellent when I had an issue. They resolved it quickly.",
   "This exceeded my expectations. The design is beautiful and it works perfectly."]

/-- Source `neutral_texts` of `mock_amazon_reviews`. -/
def mock_neutral_texts : List String :=
  ["It's an average product. Nothing special but it works as advertised.",
   "The product is good but the shipping took forever. Almost a month to arrive.",
   "It's okay for the price. Not the best quality but it gets the job done.",
   "Some features are great, others not so much. Overall it's decent.",
   "It works fine but the instructions were confusing. Had to look up a tutorial online."]

/-- Source `negative_texts` of `mock_amazon_reviews`. -/
def mock_negative_texts : List String :=
  ["I'm disappointed with this purchase. It broke after just two weeks of use.",
   "This is the worst product I've ever bought. Complete waste of money.",
   "The quality is terrible. Definitely not worth the price.",
   "It doesn't work as advertised. Very misleading product description.",
   "Had to return it. Didn't meet my expectations at all."]

/-- Source `random.choice(l)`: one element of `l`, the randomness supplied as an
arbitrary index. -/
def pickFrom (l : List String) (k : ℕ) : String :=
  match l.get? (k % l.length) with
  | some s => s
  | none => ""

/-- Source `review_date.replace(day=review_date.day - days_ago)` for mock
review `i`: Python's `datetime.replace` accepts the new day only when it
lies in `1 .. days_in_month` and otherwise raises
`ValueError: day is out of range for month`.  With `days_ago` drawn from
`1 .. 365`, the new day `nowDay - days_ago` is below 1 for every draw of
at least the current day of month. -/
def mockShiftedDay (env : ScrapeEnv) (i : ℕ) : Except String ℤ :=
  let d : ℤ := (env.nowDay : ℤ) - (env.daysAgoPick i : ℤ)
  if 1 ≤ d ∧ d ≤ (env.daysInMonth : ℤ) then Except.ok d
  else Except.error "ValueError: day is out of range for month"

/-- One iteration of the generation loop of `mock_amazon_reviews`: the
rating draw, the template choice, then the date arithmetic, whose
`replace(day=...)` call may raise. -/
def buildMockReview (env : ScrapeEnv) (asin : String) (i : ℕ) :
    Except String ScrapedReview :=
  let rating : ℕ := (env.ratingPick i).val + 1
  let text :=
    if 4 ≤ rating then pickFrom mock_positive_texts (env.textPick i)
    else if rating = 3 then pickFrom mock_neutral_texts (env.textPick i)
    else pickFrom mock_negative_texts (env.textPick i)
  match mockShiftedDay env i with
  | Except.error e => Except.error e
  | Except.ok d =>
    Except.ok
      { review_id := "mock_" ++ asin ++ "_" ++ toString i
        title := "Review for " ++ asin
        text := text
        rating := (rating : ℚ)
        reviewer_name := "MockUser" ++ toString i
        review_date_text := env.fmtMonthDayYear d
        review_date := env.fmtIso d
        verified_purchase := env.mockVerified i
        helpful_votes := env.mockHelpful i }

/-- The `for i in range(num_reviews)` loop of `mock_amazon_reviews`; an
uncaught `ValueError` in any iteration aborts the whole generation. -/
def mockLoop (env : ScrapeEnv) (asin : String) :
    List ℕ → Except String (List ScrapedReview)
  | [] => Except.ok []
  | i :: rest =>
    match buildMockReview env asin i with
    | Except.error e => Except.error e
    | Except.ok r =>
      match mockLoop env asin rest with
      | Except.error e => Except.error e
      | Except.ok rs => Except.ok (r :: rs)

/-- Source `mock_amazon_reviews(asin, num_reviews)`: the synthetic backfill
generator.  `random.choices([1..5], weights)[0]` is modelled by the
environment's `ratingPick`, `random.choice` over a template list by
`textPick`, and `random.randint(1, 365)` by `daysAgoPick`.  The function
contains no exception handler, so the `ValueError` of its date
computation propagates to its caller. -/
def mock_amazon_reviews (env : ScrapeEnv) (asin : String) (num_reviews : ℕ) :
    Except String (List ScrapedReview) :=
  mockLoop env asin (List.range num_reviews)

/-- Query of the first (rating-bucket) pass: `sort_by="TOP_REVIEWS"`,
a concrete `star_rating`. -/
def starQuery (star page : ℕ) : PageQuery :=
  { sortBy := "TOP_REVIEWS", starRating := toString star, page := page }

/-- Query of the second pass: a sort strategy with `star_rating="ALL"`. -/
def sortQuery (sortBy : String) (page : ℕ) : PageQuery :=
  { sortBy := sortBy, starRating := "ALL", page := page }

/-- The page loop of one rating bucket of the first pass: up to the listed
pages, stopping once the bucket's share is reached, on a fetch failure, or
on an empty page; each page contributes at most the bucket's remaining
share of processed items. -/
def bucketGo (env : ScrapeEnv) (star perRating : ℕ) :
    List ℕ → ℕ → List ScrapedReview
  | [], _ => []
  | page :: rest, cnt =>
    if perRating ≤ cnt then []
    else
      match env.fetch (starQuery star page) with
      | none => []
      | some [] => []
      | some items =>
        let got := (items.take (perRating - cnt)).map (processItem env)
        got ++ bucketGo env star perRating rest (cnt + got.length)

/-- The first pass of `scrape_amazon_reviews_api`: rating buckets 5..1,
each allowed `num_reviews // 5` items over at most 2 pages. -/
def firstPass (env : ScrapeEnv) (num_reviews : ℕ) : List ScrapedReview :=
  (List.foldl (fun acc star => acc ++ bucketGo env star (num_reviews / 5) [1, 2] 0)
    [] [5, 4, 3, 2, 1])

/-- The item loop of one second-pass page: skip any item whose
source-provided id is already accumulated, otherwise append it, stopping
once the overall target is reached. -/
def addItems (env : ScrapeEnv) (num_reviews : ℕ) (acc : List ScrapedReview) :
    List RawItem → List ScrapedReview
  | [] => acc
  | item :: rest =>
    if List.any acc (fun r => r.review_id == item.id) then
      addItems env num_reviews acc rest
    else
      let acc' := acc ++ [processItem env item]
      if num_reviews ≤ acc'.length then acc'
      else addItems env num_reviews acc' rest

/-- The page loop of one sort strategy of the second pass. -/
def sortGo (env : ScrapeEnv) (num_reviews : ℕ) (sortBy : String) :
    List ℕ → List ScrapedReview → List ScrapedReview
  | [], acc => acc
  | page :: rest, acc =>
    if num_reviews ≤ acc.length then acc
    else
      match env.fetch (sortQuery sortBy page) with
      | none => acc
      | some [] => acc
      | some items => sortGo env num_reviews sortBy rest (addItems env num_reviews acc items)

/-- The second pass: sort strategies `MOST_RECENT` then `TOP_REVIEWS`,
up to 2 pages each, skipped once the target is reached. -/
def secondPass (env : ScrapeEnv) (num_reviews : ℕ) (acc : List ScrapedReview) :
    List ScrapedReview :=
  (List.foldl
    (fun a sortBy => if num_reviews ≤ a.length then a else sortGo env num_reviews sortBy [1, 2] a)
    acc ["MOST_RECENT", "TOP_REVIEWS"])

/-- Source `scrape_amazon_reviews_api(asin, num_reviews, rapidapi_key)`, reduced
to the review list it returns (the product-info fetch does not influence
it).  `api_key` is the resolved `rapidapi_key or RAPIDAPI_KEY`.  The two
calls into `mock_amazon_reviews` (no key, and the backfill at line 298)
stand outside every `try` block of the function, so an exception there
propagates to the coordinator's caller. -/
def scrape_amazon_reviews_api (env : ScrapeEnv) (asin : String) (num_reviews : ℕ)
    (api_key : Option String) : Except String (List ScrapedReview) :=
  match api_key with
  | none => mock_amazon_reviews env asin num_reviews
  | some _ =>
    let afterFirst := firstPass env num_reviews
    let afterSecond :=
      if afterFirst.length < num_reviews then secondPass env num_reviews afterFirst
      else afterFirst
    if afterSecond.length < num_reviews then
      match mock_amazon_reviews env asin (num_reviews - afterSecond.length) with
      | Except.error e => Except.error e
      | Except.ok ms => Except.ok (afterSecond ++ ms)
    else Except.ok afterSecond

/-- A concrete scrape environment: the source returns an empty page for
every query, the clock stands on the 15th of a 31-day month
(2024-01-15), and the first `random.randint(1, 365)` draw is 20 — at
least the current day of month, as almost every draw is. -/
def emptySourceEnv : ScrapeEnv :=
  { fetch := fun _ => some []
    now := "2024-01-15T00:00:00"
    parseDate := fun _ => none
    ratingPick := fun _ => ⟨0, by decide⟩
    textPick := fun _ => 0
    daysAgoPick := fun _ => 20
    nowDay := 15
    daysInMonth := 31
    fmtMonthDayYear := fun _ => ""
    fmtIso := fun _ => ""
    mockVerified := fun _ => true
    mockHelpful := fun _ => 0 }

/-- A concrete already-accumulated review record. -/
def dupReview : ScrapedReview :=
  { review_id := "r1", title := "t", text := "nice", rating := 5
    reviewer_name := "u", review_date_text := "", review_date := ""
    verified_purchase := true, helpful_votes := 0 }

/-- A concrete fetched item carrying the same source id as `dupReview`. -/
def dupItem : RawItem :=
  { id := "r1", title := "t2", text := "other", rating := 4
    username := "u2", dateText := "", verified := false, helpful := 1 }

/-! ### Lemmas about aspect extraction -/

theorem buildAspects_eq_map (tl o : String) (l : List (String × List String)) :
    buildAspects tl o l
      = (l.filter (fun q => q.2.any (fun k => strContains tl k))).map
          (fun q => (q.1, o, aspectScore o)) := by
  induction l with
  | nil => rfl
  | cons hd rest ih =>
    rcases hd with ⟨b, kws⟩
    rw [buildAspects, List.filter_cons, ih]
    by_cases hany : (kws.any fun k => strContains tl k) = true
    · simp [hany]
    · simp [hany]

/-! ### Basic facts about the keyword tier -/

theorem scoreOf_nonneg (p n : ℕ) : 0 ≤ scoreOf p n := by
  unfold scoreOf
  rcases lt_trichotomy n p with h | h | h
  · have h1 : (1 : ℚ) ≤ (p : ℚ) - (n : ℚ) := by
      have : (n : ℚ) + 1 ≤ (p : ℚ) := by exact_mod_cast h
      linarith
    rw [if_pos h]
    have h2 : (0 : ℚ) ≤ min (1/2) (((p : ℚ) - (n : ℚ)) / 10) :=
      le_min (by norm_num) (by linarith)
    linarith
  · simp [h]
  · rw [if_neg (by omega), if_pos h]
    have h2 : min (1/2 : ℚ) (((n : ℚ) - (p : ℚ)) / 10) ≤ 1/2 := min_le_left _ _
    linarith

theorem scoreOf_le_one (p n : ℕ) : scoreOf p n ≤ 1 := by
  unfold scoreOf
  rcases lt_trichotomy n p with h | h | h
  · rw [if_pos h]
    have h2 : min (1/2 : ℚ) (((p : ℚ) - (n : ℚ)) / 10) ≤ 1/2 := min_le_left _ _
    linarith
  · simp [h]
    norm_num
  · rw [if_neg (by omega), if_pos h]
    have h1 : (1 : ℚ) ≤ (n : ℚ) - (p : ℚ) := by
      have : (p : ℚ) + 1 ≤ (n : ℚ) := by exact_mod_cast h
      linarith
    have h2 : (0 : ℚ) ≤ min (1/2) (((n : ℚ) - (p : ℚ)) / 10) :=
      le_min (by norm_num) (by linarith)
    linarith

theorem scoreOf_gt_half (p n : ℕ) (h : n < p) : 1/2 < scoreOf p n := by
  unfold scoreOf
  rw [if_pos h]
  have h1 : (1 : ℚ) ≤ (p : ℚ) - (n : ℚ) := by
    have : (n : ℚ) + 1 ≤ (p : ℚ) := by exact_mod_cast h
    linarith
  have h2 : (1/10 : ℚ) ≤ min (1/2) (((p : ℚ) - (n : ℚ)) / 10) :=
    le_min (by norm_num) (by linarith)
  linarith

theorem scoreOf_lt_half (p n : ℕ) (h : p < n) : scoreOf p n < 1/2 := by
  unfold scoreOf
  rw [if_neg (by omega), if_pos h]
  have h1 : (1 : ℚ) ≤ (n : ℚ) - (p : ℚ) := by
    have : (p : ℚ) + 1 ≤ (n : ℚ) := by exact_mod_cast h
    linarith
  have h2 : (1/10 : ℚ) ≤ min (1/2) (((n : ℚ) - (p : ℚ)) / 10) :=
    le_min (by norm_num) (by linarith)
  linarith

theorem scoreOf_mono (p₁ p₂ n : ℕ) (h : p₁ ≤ p₂) : scoreOf p₁ n ≤ scoreOf p₂ n := by
  rcases eq_or_lt_of_le h with rfl | hlt
  · exact le_refl _
  unfold scoreOf
  have hc : (p₁ : ℚ) ≤ (p₂ : ℚ) := by exact_mod_cast h
  rcases lt_trichotomy n p₁ with h1 | h1 | h1
  · have h2 : n < p₂ := lt_of_lt_of_le h1 h
    rw [if_pos h1, if_pos h2]
    have : min (1/2 : ℚ) (((p₁ : ℚ) - (n : ℚ)) / 10) ≤ min (1/2) (((p₂ : ℚ) - (n : ℚ)) / 10) :=
      min_le_min (le_refl _) (by linarith)
    linarith
  · rw [if_neg (by omega), if_neg (by omega), if_pos (show n < p₂ by omega)]
    have h2 : (0 : ℚ) ≤ min (1/2) (((p₂ : ℚ) - (n : ℚ)) / 10) :=
      le_min (by norm_num) (by
        have : (n : ℚ) ≤ (p₂ : ℚ) := by exact_mod_cast (show n ≤ p₂ by omega)
        linarith)
    linarith
  · rw [if_neg (by omega), if_pos h1]
    rcases lt_trichotomy n p₂ with h2 | h2 | h2
    · rw [if_pos h2]
      have ha : (0 : ℚ) ≤ min (1/2) (((p₂ : ℚ) - (n : ℚ)) / 10) :=
        le_min (by norm_num) (by
          have : (n : ℚ) ≤ (p₂ : ℚ) := by exact_mod_cast le_of_lt h2
          linarith)
      have hb : (0 : ℚ) ≤ min (1/2) (((n : ℚ) - (p₁ : ℚ)) / 10) :=
        le_min (by norm_num) (by
          have : (p₁ : ℚ) ≤ (n : ℚ) := by exact_mod_cast le_of_lt h1
          linarith)
      linarith
    · subst h2
      rw [if_neg (by omega), if_neg (by omega)]
      have hb : (0 : ℚ) ≤ min (1/2) (((n : ℚ) - (p₁ : ℚ)) / 10) :=
        le_min (by norm_num) (by
          have : (p₁ : ℚ) ≤ (n : ℚ) := by exact_mod_cast le_of_lt h1
          linarith)
      linarith
    · rw [if_neg (by omega), if_pos h2]
      have : min (1/2 : ℚ) (((n : ℚ) - (p₂ : ℚ)) / 10) ≤ min (1/2) (((n : ℚ) - (p₁ : ℚ)) / 10) :=
        min_le_min (le_refl _) (by linarith)
      linarith

theorem sentimentOf_mem (p n : ℕ) :
    sentimentOf p n ∈ (["positive", "neutral", "negative"] : List String) := by
  unfold sentimentOf
  split
  · simp
  · split <;> simp

theorem sentimentOf_pos_eq (p n : ℕ) (h : n < p) : sentimentOf p n = "positive" := by
  unfold sentimentOf; rw [if_pos h]

theorem sentimentOf_neg_eq (p n : ℕ) (h : p < n) : sentimentOf p n = "negative" := by
  unfold sentimentOf; rw [if_neg (by omega), if_pos h]

theorem sentimentOf_tie_eq (p n : ℕ) (h : p = n) : sentimentOf p n = "neutral" := by
  unfold sentimentOf; rw [if_neg (by omega), if_neg (by omega)]

theorem scoreOf_pos_eq (p n : ℕ) (h : n < p) :
    scoreOf p n = 1/2 + min (1/2) (((p : ℚ) - (n : ℚ)) / 10) := by
  unfold scoreOf; rw [if_pos h]

theorem scoreOf_neg_eq (p n : ℕ) (h : p < n) :
    scoreOf p n = 1/2 - min (1/2) (((n : ℚ) - (p : ℚ)) / 10) := by
  unfold scoreOf; rw [if_neg (by omega), if_pos h]

theorem scoreOf_tie_eq (p n : ℕ) (h : p = n) : scoreOf p n = 1/2 := by
  unfold scoreOf; rw [if_neg (by omega), if_neg (by omega)]

theorem basic_sentiment_eq (text : String) :
    (analyze_sentiment_basic text).sentiment = sentimentOf (posCount text) (negCount text) := rfl

theorem basic_score_eq (text : String) :
    (analyze_sentiment_basic text).score = scoreOf (posCount text) (negCount text) := rfl

/-- C2: the keyword-heuristic tier counts which positive / negative
keywords occur in the lowercased text and decides sentiment and score from
the strict comparison of the two counts, with score
`0.5 ± min(0.5, |pos−neg|/10)` toward the winner and `0.5` on ties. -/
theorem keyword_tier_formula (text : String) :
    (negCount text < posCount text →
      (analyze_sentiment_basic text).sentiment = "positive"
      ∧ (analyze_sentiment_basic text).score
          = 1/2 + min (1/2) (((posCount text : ℚ) - (negCount text : ℚ)) / 10))
    ∧ (posCount text < negCount text →
      (analyze_sentiment_basic text).sentiment = "negative"
      ∧ (analyze_sentiment_basic text).score
          = 1/2 - min (1/2) (((negCount text : ℚ) - (posCount text : ℚ)) / 10))
    ∧ (posCount text = negCount text →
      (analyze_sentiment_basic text).sentiment = "neutral"
      ∧ (analyze_sentiment_basic text).score = 1/2) := by
  refine ⟨fun h => ?_, fun h => ?_, fun h => ?_⟩
  · rw [basic_sentiment_eq, basic_score_eq, sentimentOf_pos_eq _ _ h, scoreOf_pos_eq _ _ h]
    exact ⟨rfl, rfl⟩
  · rw [basic_sentiment_eq, basic_score_eq, sentimentOf_neg_eq _ _ h, scoreOf_neg_eq _ _ h]
    exact ⟨rfl, rfl⟩
  · rw [basic_sentiment_eq, basic_score_eq, sentimentOf_tie_eq _ _ h, scoreOf_tie_eq _ _ h]
    exact ⟨rfl, rfl⟩

/-- Witness for C2 at concrete inputs: "love" has one positive and no
negative keyword, "bad" the reverse, "ok" neither. -/
theorem keyword_tier_formula_witness :
    (analyze_sentiment_basic "love").sentiment = "positive"
      ∧ (analyze_sentiment_basic "love").score = 1/2 + min (1/2) (((1 : ℚ) - (0 : ℚ)) / 10)
      ∧ (analyze_sentiment_basic "bad").sentiment = "negative"
      ∧ (analyze_sentiment_basic "ok").score = 1/2 := by
  have h1 := (keyword_tier_formula "love").1 (by decide)
  have h2 := (keyword_tier_formula "bad").2.1 (by decide)
  have h3 := (keyword_tier_formula "ok").2.2 (by decide)
  have hp : posCount "love" = 1 := by decide
  have hn : negCount "love" = 0 := by decide
  refine ⟨h1.1, ?_, h2.1, h3.2⟩
  rw [h1.2, hp, hn]
  norm_num

/-- C7: the keyword-heuristic score is monotone — a text with at least as
many positive-keyword matches and exactly as many negative-keyword matches
never receives a lower score. -/
theorem keyword_tier_monotone (t₁ t₂ : String)
    (hpos : posCount t₁ ≤ posCount t₂) (hneg : negCount t₂ = negCount t₁) :
    (analyze_sentiment_basic t₁).score ≤ (analyze_sentiment_basic t₂).score := by
  rw [basic_score_eq, basic_score_eq, hneg]
  exact scoreOf_mono _ _ _ hpos

/-- Witness for C7 at concrete inputs: "ok" has no keyword matches,
"love it" one positive match. -/
theorem keyword_tier_monotone_witness :
    (analyze_sentiment_basic "ok").score ≤ (analyze_sentiment_basic "love it").score :=
  keyword_tier_monotone "ok" "love it" (by decide) (by decide)

/-- C10 (implicit): sign agreement of the keyword tier — the score is
above, below or at `0.5` exactly when the sentiment is positive, negative
or neutral respectively. -/
theorem keyword_tier_sign_agreement (text : String) :
    ((1/2 : ℚ) < (analyze_sentiment_basic text).score
        ↔ (analyze_sentiment_basic text).sentiment = "positive")
    ∧ ((analyze_sentiment_basic text).score < 1/2
        ↔ (analyze_sentiment_basic text).sentiment = "negative")
    ∧ ((analyze_sentiment_basic text).score = 1/2
        ↔ (analyze_sentiment_basic text).sentiment = "neutral") := by
  set v := analyze_sentiment_basic text with hvdef
  have hs := basic_sentiment_eq text
  have hv := basic_score_eq text
  set p := posCount text
  set n := negCount text
  rcases lt_trichotomy n p with h | h | h
  · have h1 : v.sentiment = "positive" := by rw [hs]; unfold sentimentOf; rw [if_pos h]
    have h2 : 1/2 < v.score := by rw [hv]; exact scoreOf_gt_half p n h
    refine ⟨⟨fun _ => h1, fun _ => h2⟩, ?_, ?_⟩
    · constructor
      · intro hlt; exact absurd (lt_trans hlt h2) (lt_irrefl _)
      · intro hneg; rw [h1] at hneg; exact absurd hneg (by decide)
    · constructor
      · intro heq; rw [heq] at h2; exact absurd h2 (lt_irrefl _)
      · intro hneu; rw [h1] at hneu; exact absurd hneu (by decide)
  · have h1 : v.sentiment = "neutral" := by
      rw [hs]; unfold sentimentOf; rw [if_neg (by omega), if_neg (by omega)]
    have h2 : v.score = 1/2 := by
      rw [hv]; unfold scoreOf; rw [if_neg (by omega), if_neg (by omega)]
    refine ⟨?_, ?_, ⟨fun _ => h1, fun _ => h2⟩⟩
    · constructor
      · intro hlt; rw [h2] at hlt; exact absurd hlt (lt_irrefl _)
      · intro hpos; rw [h1] at hpos; exact absurd hpos (by decide)
    · constructor
      · intro hlt; rw [h2] at hlt; exact absurd hlt (lt_irrefl _)
      · intro hneg; rw [h1] at hneg; exact absurd hneg (by decide)
  · have h1 : v.sentiment = "negative" := by
      rw [hs]; unfold sentimentOf; rw [if_neg (by omega), if_pos h]
    have h2 : v.score < 1/2 := by rw [hv]; exact scoreOf_lt_half p n h
    refine ⟨?_, ⟨fun _ => h1, fun _ => h2⟩, ?_⟩
    · constructor
      · intro hlt; exact absurd (lt_trans h2 hlt) (lt_irrefl _)
      · intro hpos; rw [h1] at hpos; exact absurd hpos (by decide)
    · constructor
      · intro heq; rw [heq] at h2; exact absurd h2 (lt_irrefl _)
      · intro hneu; rw [h1] at hneu; exact absurd hneu (by decide)

/-- C9: an aspect of the fixed 7-aspect vocabulary is emitted iff one of
its keywords occurs in the lowercased text, and every emitted aspect
carries the overall sentiment verbatim with score 0.7 / 0.3 / 0.5 for
positive / negative / neutral. -/
theorem aspect_extraction_spec (text overall a : String) :
    ((∃ s sc, (a, s, sc) ∈ extract_aspects_basic text overall) ↔
      ∃ kws, (a, kws) ∈ aspect_keywords
        ∧ (kws.any fun k => strContains (strLower text) k) = true)
    ∧ ∀ s sc, (a, s, sc) ∈ extract_aspects_basic text overall →
        s = overall
        ∧ sc = (if overall = "positive" then 7/10
                else if overall = "negative" then 3/10 else 5/10) := by
  unfold extract_aspects_basic
  rw [buildAspects_eq_map]
  constructor
  · constructor
    · rintro ⟨s, sc, hm⟩
      rw [List.mem_map] at hm
      obtain ⟨q, hq, heq⟩ := hm
      rw [List.mem_filter] at hq
      refine ⟨q.2, ?_, hq.2⟩
      have ha : q.1 = a := congrArg Prod.fst heq
      rw [← ha]
      exact hq.1
    · rintro ⟨kws, hm, hany⟩
      refine ⟨overall, aspectScore overall, ?_⟩
      rw [List.mem_map]
      exact ⟨(a, kws), List.mem_filter.mpr ⟨hm, hany⟩, rfl⟩
  · intro s sc hm
    rw [List.mem_map] at hm
    obtain ⟨q, _, heq⟩ := hm
    have hs : overall = s := congrArg (fun r => r.2.1) heq
    have hsc : aspectScore overall = sc := congrArg (fun r => r.2.2) heq
    exact ⟨hs.symm, hsc.symm ▸ rfl⟩

/-! ### C1: the cascade returns a valid verdict and cannot raise -/

theorem basic_verdict_valid (text : String) :
    (analyze_sentiment_basic text).sentiment ∈ (["positive", "neutral", "negative"] : List String)
    ∧ 0 ≤ (analyze_sentiment_basic text).score ∧ (analyze_sentiment_basic text).score ≤ 1 := by
  rw [basic_sentiment_eq, basic_score_eq]
  exact ⟨sentimentOf_mem _ _, scoreOf_nonneg _ _, scoreOf_le_one _ _⟩

theorem vader_verdict_valid (c : ℚ) (text : String) (h : -1 ≤ c ∧ c ≤ 1) :
    (analyze_sentiment_vader c text).sentiment ∈ (["positive", "neutral", "negative"] : List String)
    ∧ 0 ≤ (analyze_sentiment_vader c text).score ∧ (analyze_sentiment_vader c text).score ≤ 1 := by
  refine ⟨?_, ?_, ?_⟩
  · show (if 5/100 ≤ c then "positive"
      else if c ≤ -(5/100) then "negative" else "neutral") ∈ _
    split
    · simp
    · split <;> simp
  · show 0 ≤ (c + 1) / 2
    linarith [h.1]
  · show (c + 1) / 2 ≤ 1
    linarith [h.2]

/-- C1: for every non-empty text, `analyze_sentiment` yields a verdict
whose sentiment lies in {positive, neutral, negative} and whose score lies
in [0,1] (the generative tier being assumed to honour its documented
response interface: a sentiment word and a 0–1 score); and whenever the
generative tier is unavailable or failing and the lexicon tier is
unavailable or failing, the result is exactly the keyword-heuristic
verdict — the terminal success path.  Failures of the outer tiers are the
`none` branches of the environment, all of which the cascade absorbs: the
function is total, so no exception reaches the caller. -/
theorem classify_cascade_valid (env : SentimentEnv) (text : String)
    (htext : text ≠ "")
    (hg : ∀ g, env.gemini = some g →
      strLower g.sentiment ∈ (["positive", "neutral", "negative"] : List String)
      ∧ 0 ≤ g.sentiment_score ∧ g.sentiment_score ≤ 1)
    (hv : ∀ c, env.vaderCompound = some c → -1 ≤ c ∧ c ≤ 1) :
    ((analyze_sentiment env text).sentiment ∈ (["positive", "neutral", "negative"] : List String)
      ∧ 0 ≤ (analyze_sentiment env text).score ∧ (analyze_sentiment env text).score ≤ 1)
    ∧ ((env.geminiKey = none ∨ env.gemini = none) →
        (env.vaderAvailable = false ∨ env.vaderCompound = none) →
        analyze_sentiment env text = analyze_sentiment_basic text) := by
  constructor
  · unfold analyze_sentiment
    cases hk : env.geminiKey with
    | none =>
      cases hva : env.vaderAvailable with
      | false => simpa using basic_verdict_valid text
      | true =>
        cases hvc : env.vaderCompound with
        | none => simpa using basic_verdict_valid text
        | some c => simpa using vader_verdict_valid c text (hv c hvc)
    | some k =>
      cases hgm : env.gemini with
      | some g =>
        have := hg g hgm
        simpa [normalizeGemini] using this
      | none =>
        cases hva : env.vaderAvailable with
        | false => simpa using basic_verdict_valid text
        | true =>
          cases hvc : env.vaderCompound with
          | none => simpa using basic_verdict_valid text
          | some c => simpa using vader_verdict_valid c text (hv c hvc)
  · intro h1 h2
    unfold analyze_sentiment
    cases hk : env.geminiKey with
    | none =>
      rcases h2 with hva | hvc
      · simp [hva]
      · cases hva : env.vaderAvailable
        · simp
        · simp [hvc]
    | some k =>
      cases hgm : env.gemini with
      | some g =>
        rcases h1 with h1 | h1
        · rw [hk] at h1; exact absurd h1 (by simp)
        · rw [hgm] at h1; exact absurd h1 (by simp)
      | none =>
        rcases h2 with hva | hvc
        · simp [hva]
        · cases hva : env.vaderAvailable
          · simp
          · simp [hvc]

/-- Witness for C1 at a concrete input. -/
theorem classify_cascade_valid_witness :
    ((analyze_sentiment bareEnv "love it").sentiment
        ∈ (["positive", "neutral", "negative"] : List String)
      ∧ 0 ≤ (analyze_sentiment bareEnv "love it").score
      ∧ (analyze_sentiment bareEnv "love it").score ≤ 1)
    ∧ analyze_sentiment bareEnv "love it" = analyze_sentiment_basic "love it" := by
  have h := classify_cascade_valid bareEnv "love it" (by decide)
    (fun g hgm => nomatch hgm) (fun c hvc => nomatch hvc)
  exact ⟨h.1, h.2 (Or.inl rfl) (Or.inl rfl)⟩

/-! ### C8: no tier ever supplies a confidence key; the consumer defaults it -/

/-- Counterexample to C8 as stated: at the concrete text
`"The product is great"`, answered by the keyword-heuristic tier, the
verdict returned by `analyze_sentiment` has no confidence field at all —
in particular it is not equal to 0.8. -/
theorem confidence_field_counterexample :
    (analyze_sentiment bareEnv "The product is great").confidence ≠ some (8/10) := by
  decide

/-- C8 amended: verdicts answered by the lexicon or keyword-heuristic
tiers carry no confidence key; the file processor (`process_file`) reads
the confidence with default 0.8, so the row it builds has
confidence 0.8. -/
theorem confidence_default_applied (env : SentimentEnv) (text : String)
    (h : env.geminiKey = none ∨ env.gemini = none) :
    (analyze_sentiment env text).confidence = none
    ∧ result_confidence (analyze_sentiment env text) = 8/10 := by
  have hnone : (analyze_sentiment env text).confidence = none := by
    unfold analyze_sentiment
    cases hk : env.geminiKey with
    | none =>
      cases env.vaderAvailable
      · rfl
      · cases env.vaderCompound <;> rfl
    | some k =>
      cases hgm : env.gemini with
      | some g =>
        rcases h with h | h
        · rw [hk] at h; exact absurd h (by simp)
        · rw [hgm] at h; exact absurd h (by simp)
      | none =>
        cases env.vaderAvailable
        · rfl
        · cases env.vaderCompound <;> rfl
  exact ⟨hnone, by rw [result_confidence, hnone]; rfl⟩

/-- Witness for the amended C8 at a concrete input. -/
theorem confidence_default_applied_witness :
    (analyze_sentiment bareEnv "ok").confidence = none
    ∧ result_confidence (analyze_sentiment bareEnv "ok") = 8/10 :=
  confidence_default_applied bareEnv "ok" (Or.inl rfl)

/-! ### C4: insight synthesis on empty and all-positive batches -/

/-- C4: on an empty batch the synthesizer returns the fixed
"not enough data" report whatever the provider environment (no provider
call is consulted); and on any non-empty all-positive batch the heuristic
tier's satisfaction summary comes from the "generally very satisfied"
branch (the positive percentage is 100 ≥ 70). -/
theorem insights_empty_and_all_positive :
    (∀ (env : InsightEnv) (product_name : String),
      generate_actionable_insights env [] product_name = not_enough_data_report)
    ∧ (∀ (reviews : List InReview) (product_name : String), reviews ≠ [] →
        (∀ r ∈ reviews, r.sentiment = "positive") →
        (generate_insights_basic reviews product_name).customer_satisfaction_summary
          = "Customers are generally very satisfied with the product.") := by
  constructor
  · intro env product_name
    simp [generate_actionable_insights]
  · intro reviews product_name hne hall
    have htot : 0 < reviews.length := List.length_pos.mpr hne
    have hfil : reviews.filter (fun r => r.sentiment == "positive") = reviews :=
      List.filter_eq_self.mpr (fun a ha => beq_iff_eq.mpr (hall a ha))
    have hq : (0 : ℚ) < (reviews.length : ℚ) := by exact_mod_cast htot
    unfold generate_insights_basic
    simp only [hfil, if_pos htot, div_self hq.ne']
    norm_num

/-- Witness for C4 at concrete inputs. -/
theorem insights_empty_and_all_positive_witness :
    generate_actionable_insights ⟨false, none⟩ [] "p" = not_enough_data_report
    ∧ (generate_insights_basic [⟨"positive", [], []⟩] "p").customer_satisfaction_summary
        = "Customers are generally very satisfied with the product." :=
  ⟨insights_empty_and_all_positive.1 ⟨false, none⟩ "p",
   insights_empty_and_all_positive.2 [⟨"positive", [], []⟩] "p" (by decide) (by decide)⟩

/-! ### C3: text-column resolution -/

/-- C3: the code's text-column resolution agrees with the spec's
procedure (exact names `text, review_text, comment, feedback` in priority
order, then the first string-typed column of average length > 10); when
nothing qualifies the whole ingestion fails with the terminal user-visible
no-text-column error; and the wide table
`{review_text, rating, product_name}` resolves `text` to the aliased
`review_text` values. -/
theorem text_column_resolution :
    (∀ t : Table, findTextColumn t = spec_text_resolution t)
    ∧ (∀ t : Table, findTextColumn (prepTable t) = none →
        processTableText t = Except.error noTextColumnMsg)
    ∧ (∀ (tcells rcells pcells : List String) (robj pobj : Bool),
        processTableText
          [{ name := "review_text", isObj := true, cells := tcells },
           { name := "rating", isObj := robj, cells := rcells },
           { name := "product_name", isObj := pobj, cells := pcells }]
          = Except.ok tcells) := by
  refine ⟨?_, ?_, ?_⟩
  · intro t
    cases h1 : hasCol t "text" <;> cases h2 : hasCol t "review_text" <;>
      cases h3 : hasCol t "comment" <;> cases h4 : hasCol t "feedback" <;>
      simp [findTextColumn, spec_text_resolution, h1, h2, h3, h4, List.find?]
  · intro t h
    simp [processTableText, h]
  · intro tcells rcells pcells robj pobj
    rfl

/-- Witness for C3 at concrete tables. -/
theorem text_column_resolution_witness :
    findTextColumn [] = spec_text_resolution ([] : Table)
    ∧ processTableText [{ name := "rating", isObj := false, cells := ["5"] }]
        = Except.error noTextColumnMsg
    ∧ processTableText
        [{ name := "review_text", isObj := true, cells := ["great product, works well"] },
         { name := "rating", isObj := false, cells := ["5"] },
         { name := "product_name", isObj := true, cells := ["Widget"] }]
        = Except.ok ["great product, works well"] :=
  ⟨text_column_resolution.1 [],
   text_column_resolution.2.1 [{ name := "rating", isObj := false, cells := ["5"] }] (by decide),
   text_column_resolution.2.2 ["great product, works well"] ["5"] ["Widget"] false true⟩

/-! ### C5: the backfill crashes on the mock date computation -/

/-- C5: evaluation of the coordinator at the failing input — target count
20, a source returning zero items on every page, the clock on 2024-01-15
(day of month 15, a 31-day month) and a `random.randint(1, 365)` draw of
20.  Both passes accumulate nothing and the run reaches the synthetic
backfill, whose date computation
`review_date.replace(day=review_date.day - days_ago)` asks for day
15 − 20 = −5: `datetime.replace` raises
`ValueError: day is out of range for month`, nothing in
`mock_amazon_reviews` or `scrape_amazon_reviews_api` catches it, and the
coordinator propagates the exception instead of returning 20 synthetic
records. -/
theorem backfill_valueerror_at_failing_input :
    scrape_amazon_reviews_api emptySourceEnv "B000000000" 20 (some "key")
      = Except.error "ValueError: day is out of range for month" := by
  rfl

/-! ### C6: second-pass dedup by source id -/

/-- C6: in the second ingestion pass, for every accumulator state and
every fetched item, an item whose source-provided id already occurs in the
accumulated set is skipped — the loop continues with the remaining items
and nothing is appended for it. -/
theorem second_pass_skips_duplicate (env : ScrapeEnv) (num : ℕ)
    (acc : List ScrapedReview) (item : RawItem) (rest : List RawItem)
    (h : ∃ r ∈ acc, r.review_id = item.id) :
    addItems env num acc (item :: rest) = addItems env num acc rest := by
  have hany : (List.any acc fun r => r.review_id == item.id) = true := by
    rw [List.any_eq_true]
    obtain ⟨r, hr, he⟩ := h
    exact ⟨r, hr, beq_iff_eq.mpr he⟩
  rw [addItems, if_pos hany]

/-- Witness for C6: a concrete accumulator already holding id `r1` and a
fetched item with the same id. -/
theorem second_pass_skips_duplicate_witness :
    addItems emptySourceEnv 20 [dupReview] [dupItem] = [dupReview] := by
  rw [second_pass_skips_duplicate emptySourceEnv 20 [dupReview] dupItem []
    ⟨dupReview, by simp, rfl⟩]
  rfl
